import Mathlib

/-!
# Verification of the Nexis download manager (`src/nexis_downloader.py`)

Shallow embedding of the download-orchestration script: Python string
operations are modelled over `List Char` (kernel-reducible), external
effects (HTTP responses, subprocess outcomes, filesystem state) are inputs
to the embedded functions, and each function mirrors the control flow of
its Python counterpart line by line.
-/

namespace Catalyst

/-! ## Python string primitives

Executable counterparts of `str.strip`, `str.split`, `str.lower` used by
the script, written by structural recursion on the character list so the
kernel can evaluate them. -/

/-- Python `str.strip()`: drop leading and trailing whitespace. -/
def pyStrip (s : String) : String :=
  ⟨((s.data.dropWhile Char.isWhitespace).reverse.dropWhile Char.isWhitespace).reverse⟩

/-- Split a character list at every character satisfying `p`, keeping empty
pieces (the behaviour of Python `str.split(sep)` for a one-character
separator when `p` matches exactly that separator). -/
def splitP (p : Char → Bool) : List Char → List Char → List String
  | [], cur => [⟨cur.reverse⟩]
  | c :: cs, cur => if p c then ⟨cur.reverse⟩ :: splitP p cs [] else splitP p cs (c :: cur)

/-- Python `s.split(",")`. -/
def pySplitComma (s : String) : List String :=
  splitP (fun c => c = ',') s.data []

/-- Python `s.split()` (no argument): whitespace-delimited tokens, empties
dropped. -/
def pyWsTokens (s : String) : List String :=
  (splitP Char.isWhitespace s.data []).filter (fun t => t ≠ "")

/-- Python `str.lower()` (ASCII, which is all the script compares). -/
def pyLower (s : String) : String :=
  ⟨s.data.map Char.toLower⟩

/-- The comma-list parsing idiom used for every configuration list:
`[x.strip() for x in s.split(",") if x.strip()]`
(lines 149 and 424 of `nexis_downloader.py`). -/
def parseList (s : String) : List String :=
  ((pySplitComma s).map pyStrip).filter (fun t => t ≠ "")

/-- Number of non-blank identifiers configured in a comma-separated list
(the `len([... for ... if ...])` expressions at lines 497 and 512). -/
def countIds (s : String) : Nat :=
  (parseList s).length

/-! ## Checksum verifier (`_verify_checksum`, lines 368-411)

The `sha256sum` subprocess is abstracted as a `HashResult` input: either it
succeeded and produced some stdout, or it failed (covering
`CalledProcessError`, `FileNotFoundError` and any other exception, all of
which the Python code catches and turns into `False`; the `IndexError` on
empty output is the empty-token-list case below). -/

/-- Outcome of running the external hashing binary. -/
inductive HashResult where
  | ok (stdout : String)
  | failed
deriving DecidableEq

/-- Embedding of `_verify_checksum(file_path, expected_hash)`.
`fileExists` is `file_path.exists()`; `hres` is the `sha256sum` run. -/
def verify_checksum (fileExists : Bool) (expectedHash : String) (hres : HashResult) : Bool :=
  if !fileExists then false
  else if pyStrip expectedHash = "" then false
  else
    match hres with
    | HashResult.failed => false
    | HashResult.ok out =>
      match pyWsTokens out with
      | [] => false
      | t :: _ => pyLower t == pyLower (pyStrip expectedHash)

/-! ## CivitAI metadata fetch (`get_civitai_model_info`, lines 201-250)

The HTTP exchange is abstracted as an `ApiResponse` input: `exn` covers
any `requests.RequestException` (including the one `raise_for_status`
throws on 4xx/5xx); `ok status files` is a response that parsed, with the
JSON `files` array decoded into `CivFile` records (`data.get("files") or
[]` makes a missing or null array the empty list). -/

/-- One entry of the JSON `files` array of a model-version response. -/
structure CivFile where
  name : Option String
  downloadUrl : Option String
  primary : Bool
  sha256 : Option String
  sizeKB : Nat
deriving DecidableEq

/-- Outcome of the metadata GET. -/
inductive ApiResponse where
  | exn
  | ok (status : Nat) (files : List CivFile)
deriving DecidableEq

/-- The dict returned by `get_civitai_model_info` on success. -/
structure ModelInfo where
  filename : Option String
  download_url : String
  hash : String
  size : Nat
deriving DecidableEq

/-- Embedding of `get_civitai_model_info(model_id, token)`. The token only
decorates the request; the request's outcome is the `resp` input. -/
def get_civitai_model_info (modelId : String) (resp : ApiResponse) : Option ModelInfo :=
  match resp with
  | ApiResponse.exn => none
  | ApiResponse.ok status files =>
    if status = 200 then
      match files with
      | [] => none
      | f :: _ =>
        let primary_file := (files.find? (fun fi => fi.primary)).getD f
        let du := primary_file.downloadUrl.getD ""
        let download_url :=
          if du = "" then "https://civitai.com/api/download/models/" ++ modelId else du
        let sha := primary_file.sha256.getD ""
        some { filename := primary_file.name
               download_url := download_url
               hash := if sha = "" then "" else pyLower (pyStrip sha)
               size := primary_file.sizeKB * 1024 }
    else none

/-! ## CivitAI single-model download (`download_civitai_model`, lines 252-366) -/

/-- The external world one call to `download_civitai_model` interacts
with: tool availability, the metadata response, the pre-existing state of
the destination file, and the outcomes of the `aria2c` and `sha256sum`
subprocesses. -/
structure CivitaiWorld where
  /-- whether `shutil.which` finds both `aria2c` and `sha256sum` -/
  toolsPresent : Bool
  /-- outcome of the metadata GET -/
  resp : ApiResponse
  /-- value of `output_file.exists()` before the run -/
  fileExists : Bool
  /-- value of `output_file.stat().st_size` before the run -/
  fileSize : Nat
  /-- the `aria2c` subprocess exits 0 -/
  downloadOk : Bool
  /-- after a failed `aria2c` run, a partial file is on disk -/
  partialLeft : Bool
  /-- outcome of `sha256sum` on the output file -/
  hashOut : HashResult
deriving DecidableEq

/-- Observable outcome of one `download_civitai_model` call: its return
value plus the effects the claims talk about. -/
structure CivitaiResult where
  /-- the boolean the Python function returns -/
  success : Bool
  /-- the metadata GET was issued -/
  metadataFetched : Bool
  /-- the call reached `model_dir.mkdir` (line 277) -/
  dirCreated : Bool
  /-- the downloader subprocess `aria2c` was invoked -/
  downloadInvoked : Bool
  /-- the `aria2c` command carried an `Authorization: Bearer` header -/
  authHeader : Bool
  /-- the URL handed to `aria2c`, when it was invoked -/
  urlUsed : Option String
  /-- the call reached `output_file.unlink` with a file present -/
  fileDeleted : Bool
  /-- the destination file exists when the call returns -/
  filePresentAfter : Bool
deriving DecidableEq

/-- Python `token and token.strip()` (line 288): the header is attached
iff a token was supplied and is not all-whitespace. -/
def tokenNonblank : Option String → Bool
  | none => false
  | some t => !(pyStrip t == "")

/-- Embedding of `download_civitai_model(model_id, model_type, token)`.
Mirrors the source's control flow: empty-id early success; tool check;
metadata fetch; skip when the destination file exists non-empty; `aria2c`
invocation with the metadata URL and an unconditional bearer header when
the token is non-blank; post-download checksum only when a hash is known,
deleting the file on mismatch; partial-file cleanup on `aria2c` failure. -/
def download_civitai_model (modelId modelType : String) (token : Option String)
    (w : CivitaiWorld) : CivitaiResult :=
  if modelId = "" then
    { success := true, metadataFetched := false, dirCreated := false
      downloadInvoked := false, authHeader := false, urlUsed := none
      fileDeleted := false, filePresentAfter := w.fileExists }
  else if !w.toolsPresent then
    { success := false, metadataFetched := false, dirCreated := false
      downloadInvoked := false, authHeader := false, urlUsed := none
      fileDeleted := false, filePresentAfter := w.fileExists }
  else
    match get_civitai_model_info modelId w.resp with
    | none =>
      { success := false, metadataFetched := true, dirCreated := false
        downloadInvoked := false, authHeader := false, urlUsed := none
        fileDeleted := false, filePresentAfter := w.fileExists }
    | some info =>
      if info.filename.getD "" = "" then
        { success := false, metadataFetched := true, dirCreated := false
          downloadInvoked := false, authHeader := false, urlUsed := none
          fileDeleted := false, filePresentAfter := w.fileExists }
      else
        if w.fileExists && decide (0 < w.fileSize) then
          { success := true, metadataFetched := true, dirCreated := true
            downloadInvoked := false, authHeader := false, urlUsed := none
            fileDeleted := false, filePresentAfter := true }
        else
          let auth := tokenNonblank token
          if w.downloadOk then
            if info.hash ≠ "" then
              if verify_checksum true info.hash w.hashOut then
                { success := true, metadataFetched := true, dirCreated := true
                  downloadInvoked := true, authHeader := auth, urlUsed := some info.download_url
                  fileDeleted := false, filePresentAfter := true }
              else
                { success := false, metadataFetched := true, dirCreated := true
                  downloadInvoked := true, authHeader := auth, urlUsed := some info.download_url
                  fileDeleted := true, filePresentAfter := false }
            else
              { success := true, metadataFetched := true, dirCreated := true
                downloadInvoked := true, authHeader := auth, urlUsed := some info.download_url
                fileDeleted := false, filePresentAfter := true }
          else
            { success := false, metadataFetched := true, dirCreated := true
              downloadInvoked := true, authHeader := auth, urlUsed := some info.download_url
              fileDeleted := w.partialLeft, filePresentAfter := false }

/-- Host part of a URL (scheme stripped, up to the first `/`), used to
state the claim about where the bearer token may be sent. -/
def urlHost (url : String) : String :=
  let cs := url.data
  let rest :=
    if (⟨cs.take 8⟩ : String) = "https://" then cs.drop 8
    else if (⟨cs.take 7⟩ : String) = "http://" then cs.drop 7
    else cs
  ⟨rest.takeWhile (fun c => c ≠ '/')⟩

/-! ## CivitAI batch loop (`process_civitai_downloads`, lines 413-435) -/

/-- Loop body of `process_civitai_downloads`: one id bumps exactly one of
the two counters according to `download_civitai_model`'s return value. -/
def civStep (modelType : String) (token : Option String) (worlds : String → CivitaiWorld)
    (acc : Nat × Nat) (modelId : String) : Nat × Nat :=
  if (download_civitai_model modelId modelType token (worlds modelId)).success then
    (acc.1 + 1, acc.2)
  else
    (acc.1, acc.2 + 1)

/-- Embedding of `process_civitai_downloads(download_list, model_type,
token)`; `worlds` supplies the external world each identifier meets. -/
def process_civitai_downloads (downloadList modelType : String) (token : Option String)
    (worlds : String → CivitaiWorld) : Nat × Nat :=
  if downloadList = "" then (0, 0)
  else (parseList downloadList).foldl (civStep modelType token worlds) (0, 0)

/-! ## Hugging-Face fetcher (`download_hf_repos`, lines 139-197) -/

/-- Return value of `download_hf_repos` plus the list of identifiers for
which the external sync tool was actually invoked. -/
structure HFResult where
  ok : Nat
  fail : Nat
  invoked : List String
deriving DecidableEq

/-- Loop body of `download_hf_repos`: every identifier reaching the loop
gets a `huggingface-cli` invocation, whose exit status decides the
counter. -/
def hfStep (syncOk : String → Bool) (acc : HFResult) (repoId : String) : HFResult :=
  if syncOk repoId then
    { ok := acc.ok + 1, fail := acc.fail, invoked := acc.invoked ++ [repoId] }
  else
    { ok := acc.ok, fail := acc.fail + 1, invoked := acc.invoked ++ [repoId] }

/-- Embedding of `download_hf_repos(repos_list, token)`. `toolPresent` is
`shutil.which("huggingface-cli")`; `syncOk` gives each repo's subprocess
outcome. `dirNonEmpty` records whether the destination directory for a
repo already exists non-empty — the source never consults it (there is no
idempotency check in the loop), so the result does not depend on it; it is
a parameter only so the directory-skip claim can be stated. The token only
decorates the command line and cannot change the result. -/
def download_hf_repos (reposList : String) (token : Option String) (toolPresent : Bool)
    (dirNonEmpty syncOk : String → Bool) : HFResult :=
  if reposList = "" then { ok := 0, fail := 0, invoked := [] }
  else if !toolPresent then { ok := 0, fail := 1, invoked := [] }
  else (parseList reposList).foldl (hfStep syncOk) { ok := 0, fail := 0, invoked := [] }

/-! ## Driver (`main`, lines 447-560) -/

/-- Exit-code selection from the aggregated counters (lines 554-560). -/
def exit_code (totalDownloads totalFailures : Nat) : Nat :=
  if totalFailures = 0 then 0
  else if totalFailures < totalDownloads then 2
  else 1

/-- The environment variables and token-validation outcomes `main` works
from (lines 450-456 and 475). -/
structure MainEnv where
  hfRepos : String
  hfToken : String
  civitaiToken : String
  checkpoints : String
  loras : String
  vaes : String
  hfValid : Bool
  civitaiValid : Bool
deriving DecidableEq

/-- Embedding of `main`'s accounting (lines 487-512): the pair
`(total_downloads, total_failures)` after both source blocks ran. HF
downloads run only when requested and the token validated; an invalid HF
token counts every requested repo as a failure without adding to the
download total. CivitAI runs when the token validated or none was set;
otherwise every configured id across the three categories is counted as a
failure, again without adding to the download total. -/
def main_totals (env : MainEnv) (hfTool : Bool) (hfDirNonEmpty hfSyncOk : String → Bool)
    (ckWorlds lrWorlds vaWorlds : String → CivitaiWorld) : Nat × Nat :=
  let hfTok : Option String := some env.hfToken
  let cvTok : Option String := some env.civitaiToken
  let hfPart : Nat × Nat :=
    if env.hfRepos ≠ "" ∧ env.hfValid then
      let r := download_hf_repos env.hfRepos hfTok hfTool hfDirNonEmpty hfSyncOk
      (r.ok + r.fail, r.fail)
    else if env.hfRepos ≠ "" then (0, countIds env.hfRepos)
    else (0, 0)
  let cvPart : Nat × Nat :=
    if env.civitaiValid ∨ env.civitaiToken = "" then
      let ck := process_civitai_downloads env.checkpoints "checkpoints" cvTok ckWorlds
      let lr := process_civitai_downloads env.loras "loras" cvTok lrWorlds
      let va := process_civitai_downloads env.vaes "vae" cvTok vaWorlds
      (ck.1 + ck.2 + lr.1 + lr.2 + va.1 + va.2, ck.2 + lr.2 + va.2)
    else
      (0, countIds env.checkpoints + countIds env.loras + countIds env.vaes)
  (hfPart.1 + cvPart.1, hfPart.2 + cvPart.2)

/-! ## Completion marker

Modelled from the spec: the completion-marker logic (§3 CompletionMarker,
§4.5 policy table) is not part of `src/nexis_downloader.py` — it lives in
the repository's startup scripting around the Python process. Per the
spec: a marker already present at start short-circuits the whole run with
exit 0 and no work attempted; otherwise the downloads run, the exit code
is selected from the counters exactly as in `exit_code`, and the marker is
written in every case except total failure (exit 1). -/

/-- Outcome of one wrapped invocation. -/
structure MarkerOutcome where
  exitCode : Nat
  markerAfter : Bool
  workAttempted : Bool
deriving DecidableEq

/-- Modelled from the spec: one program invocation under the
completion-marker protocol, given the marker's presence at start and the
counter pair a full download pass would produce. -/
def run_with_marker (markerPresent : Bool) (totalDownloads totalFailures : Nat) :
    MarkerOutcome :=
  if markerPresent then
    { exitCode := 0, markerAfter := true, workAttempted := false }
  else
    let ec := exit_code totalDownloads totalFailures
    { exitCode := ec, markerAfter := ec != 1, workAttempted := true }

/-! ## Concrete worlds used to instantiate the theorems -/

/-- A public model file whose metadata carries no hash and whose download
URL sits on the API host. -/
def fOk : CivFile :=
  { name := some "m.safetensors"
    downloadUrl := some "https://civitai.com/api/download/models/1"
    primary := true
    sha256 := none
    sizeKB := 0 }

/-- A world in which metadata, tools and download all cooperate. -/
def wOk : CivitaiWorld :=
  { toolsPresent := true
    resp := ApiResponse.ok 200 [fOk]
    fileExists := false
    fileSize := 0
    downloadOk := true
    partialLeft := false
    hashOut := HashResult.ok "aa f" }

/-- A model file whose metadata-supplied download URL lives on a foreign
storage host, not on the API host. -/
def fStorage : CivFile :=
  { name := some "m.safetensors"
    downloadUrl := some "https://storage.example.com/m.safetensors"
    primary := true
    sha256 := none
    sizeKB := 0 }

/-- Like `wOk` but the download URL points at the storage host. -/
def wStorage : CivitaiWorld :=
  { wOk with resp := ApiResponse.ok 200 [fStorage] }

/-- A model file whose metadata supplies the SHA-256 hash `AAAA`
(lower-cased to `aaaa` by the metadata fetcher). -/
def fHash : CivFile :=
  { name := some "m.safetensors"
    downloadUrl := some "https://civitai.com/api/download/models/9"
    primary := true
    sha256 := some "AAAA"
    sizeKB := 0 }

/-- A world in which the destination file already exists, is non-empty,
and hashes to `bbbb` — mismatching the expected `aaaa`. -/
def wExisting : CivitaiWorld :=
  { toolsPresent := true
    resp := ApiResponse.ok 200 [fHash]
    fileExists := true
    fileSize := 7
    downloadOk := true
    partialLeft := false
    hashOut := HashResult.ok "bbbb  m.safetensors" }

/-- Like `wExisting` but with no pre-existing file: the download runs and
the downloaded file hashes to `bbbb`, mismatching the expected `aaaa`. -/
def wMismatch : CivitaiWorld :=
  { wExisting with fileExists := false, fileSize := 0 }

/-- A driver environment: two HF repos requested with a token that failed
validation, one CivitAI checkpoint, no CivitAI token. -/
def envMixed : MainEnv :=
  { hfRepos := "a,b"
    hfToken := "tokH"
    civitaiToken := ""
    checkpoints := "1"
    loras := ""
    vaes := ""
    hfValid := false
    civitaiValid := true }

end Catalyst

namespace Catalyst

/-! ## Helper lemmas -/

/-- Each step of the CivitAI batch loop bumps exactly one counter, so the
fold adds the list length to the counter sum. -/
theorem civStep_foldl_sum (modelType : String) (token : Option String)
    (worlds : String → CivitaiWorld) (l : List String) :
    ∀ acc : Nat × Nat,
      ((l.foldl (civStep modelType token worlds) acc).1 +
        (l.foldl (civStep modelType token worlds) acc).2) = acc.1 + acc.2 + l.length := by
  induction l with
  | nil => intro acc; simp
  | cons x xs ih =>
    intro acc
    simp only [List.foldl_cons, List.length_cons]
    rw [ih]
    unfold civStep
    split <;> simp <;> omega

/-- Each step of the HF loop bumps exactly one counter and records the
repo as invoked. -/
theorem hfStep_foldl_spec (syncOk : String → Bool) (l : List String) :
    ∀ acc : HFResult,
      ((l.foldl (hfStep syncOk) acc).ok + (l.foldl (hfStep syncOk) acc).fail
          = acc.ok + acc.fail + l.length) ∧
      (l.foldl (hfStep syncOk) acc).invoked = acc.invoked ++ l := by
  induction l with
  | nil => intro acc; simp
  | cons x xs ih =>
    intro acc
    simp only [List.foldl_cons, List.length_cons]
    refine ⟨?_, ?_⟩
    · rw [(ih _).1]
      unfold hfStep
      split <;> simp <;> omega
    · rw [(ih _).2]
      unfold hfStep
      split <;> simp

/-- A blank configuration list parses to no identifiers. -/
theorem countIds_empty : countIds "" = 0 := rfl

/-! ## Claims -/

/-- C1: the completion marker is written exactly when not all attempted
downloads failed (the runs with exit codes 0 and 2, including the
no-sources run), and a marker already present at start makes the run skip
all work and exit 0, whatever counters the configuration would have
produced. -/
theorem completion_marker_protocol :
    (∀ totalDownloads totalFailures : Nat,
        run_with_marker true totalDownloads totalFailures =
          { exitCode := 0, markerAfter := true, workAttempted := false }) ∧
    (∀ totalDownloads totalFailures : Nat,
        ((run_with_marker false totalDownloads totalFailures).markerAfter = true ↔
          totalFailures = 0 ∨ totalFailures < totalDownloads)) := by
  constructor
  · intro t f; rfl
  · intro t f
    have hrw : (run_with_marker false t f).markerAfter = (exit_code t f != 1) := rfl
    rw [hrw]
    unfold exit_code
    split_ifs with h1 h2
    · simp [h1]
    · simp [h2]
    · simp [h1, h2]

/-- C2, counterexample: in a run whose metadata-supplied download URL
lives on `storage.example.com`, the code still attaches the Authorization
header to the download invocation of that URL — there is no
redirect pre-resolution and no host check, so the bearer token does reach
a host other than the original API host `civitai.com`. -/
theorem civitai_token_cross_host_cex :
    (download_civitai_model "123" "loras" (some "tok") wStorage).authHeader = true ∧
    (download_civitai_model "123" "loras" (some "tok") wStorage).urlUsed =
      some "https://storage.example.com/m.safetensors" ∧
    urlHost "https://storage.example.com/m.safetensors" ≠ "civitai.com" := by decide

/-- C2, amended: the downloader performs no redirect resolution and no
host comparison; the Authorization header is attached to the `aria2c`
invocation exactly when the download is invoked at all and the supplied
token is non-blank, regardless of the download URL's host. -/
theorem civitai_auth_header_unconditional (modelId modelType : String)
    (token : Option String) (w : CivitaiWorld) :
    (download_civitai_model modelId modelType token w).authHeader =
      ((download_civitai_model modelId modelType token w).downloadInvoked
        && tokenNonblank token) := by
  unfold download_civitai_model
  repeat' split
  all_goals rfl

/-- C3, counterexample: a run in which the destination file already
exists non-empty, the metadata supplies the hash `aaaa`, and the file on
disk hashes to `bbbb` (so verification would fail) — yet the code returns
success with no verification, no deletion and no download. -/
theorem civitai_existing_file_unverified_cex :
    (get_civitai_model_info "9" wExisting.resp).map ModelInfo.hash = some "aaaa" ∧
    wExisting.fileExists = true ∧ 0 < wExisting.fileSize ∧
    verify_checksum true "aaaa" wExisting.hashOut = false ∧
    download_civitai_model "9" "checkpoints" (some "tok") wExisting =
      { success := true, metadataFetched := true, dirCreated := true
        downloadInvoked := false, authHeader := false, urlUsed := none
        fileDeleted := false, filePresentAfter := true } := by decide

/-- C3, amended: whenever the destination file exists with non-zero size
(and metadata was retrieved with a filename), the identifier succeeds with
the download skipped and the existing file untouched — without any hash
verification, whether or not the metadata supplied a hash. -/
theorem civitai_existing_nonempty_always_skipped (modelId modelType : String)
    (token : Option String) (w : CivitaiWorld) (info : ModelInfo)
    (hid : modelId ≠ "") (htools : w.toolsPresent = true)
    (hinfo : get_civitai_model_info modelId w.resp = some info)
    (hname : info.filename.getD "" ≠ "")
    (hex : w.fileExists = true) (hsz : 0 < w.fileSize) :
    download_civitai_model modelId modelType token w =
      { success := true, metadataFetched := true, dirCreated := true
        downloadInvoked := false, authHeader := false, urlUsed := none
        fileDeleted := false, filePresentAfter := true } := by
  simp [download_civitai_model, hid, htools, hinfo, hname, hex, hsz]

/-- C3, witness: the amended theorem applied to the concrete world
`wExisting` (existing non-empty file, known hash `aaaa`). -/
theorem civitai_existing_nonempty_always_skipped_witness :
    download_civitai_model "9" "checkpoints" (some "tok") wExisting =
      { success := true, metadataFetched := true, dirCreated := true
        downloadInvoked := false, authHeader := false, urlUsed := none
        fileDeleted := false, filePresentAfter := true } :=
  civitai_existing_nonempty_always_skipped "9" "checkpoints" (some "tok") wExisting
    { filename := some "m.safetensors"
      download_url := "https://civitai.com/api/download/models/9"
      hash := "aaaa"
      size := 0 }
    (by decide) (by decide) (by decide) (by decide) (by decide) (by decide)

/-- C4, counterexample: with the destination directory for `repo1`
existing and non-empty (`dirNonEmpty` constantly true), the fetcher still
invokes the external sync tool for `repo1` — the loop has no
existing-directory skip. -/
theorem hf_no_directory_skip_cex :
    "repo1" ∈ (download_hf_repos "repo1" none true (fun _ => true) (fun _ => true)).invoked := by
  decide

/-- C4, amended: when the sync tool is present, the fetcher invokes it
for every configured identifier, regardless of the destination
directories' state (it relies on the tool's own resume flag instead of an
existence check). -/
theorem hf_invokes_every_repo (reposList : String) (token : Option String)
    (dirNonEmpty syncOk : String → Bool) :
    (download_hf_repos reposList token true dirNonEmpty syncOk).invoked =
      parseList reposList := by
  by_cases h : reposList = ""
  · subst h; rfl
  · have hd : download_hf_repos reposList token true dirNonEmpty syncOk
        = (parseList reposList).foldl (hfStep syncOk) { ok := 0, fail := 0, invoked := [] } := by
      unfold download_hf_repos
      rw [if_neg h]
      rfl
    rw [hd, (hfStep_foldl_spec syncOk (parseList reposList) _).2]
    simp

/-- C5, counterexample: two HF repos skipped for an invalid token (two
failures, not counted as downloads) plus one successful CivitAI
checkpoint yields counters `(1, 2)` — some failures and some successes —
yet the exit code is 1, not the 2 the claim requires, because the
skip-counted failures exceed the attempted-download total. -/
theorem exit_code_mixed_cex :
    process_civitai_downloads "1" "checkpoints" (some "") (fun _ => wOk) = (1, 0) ∧
    main_totals envMixed true (fun _ => false) (fun _ => true)
      (fun _ => wOk) (fun _ => wOk) (fun _ => wOk) = (1, 2) ∧
    exit_code 1 2 = 1 := by decide

/-- C5, amended: the exit code is 0 iff there are zero failures, 2 iff
the failure count is positive and strictly below the attempted-download
total, and 1 otherwise (failures at least the attempted total); and when
the HF token fails validation the requested repos add their count to the
failures only, never to the attempted total — so enough skip-counted
failures force exit 1 even in the presence of successes. -/
theorem exit_code_selection :
    (∀ totalDownloads totalFailures : Nat,
      (exit_code totalDownloads totalFailures = 0 ↔ totalFailures = 0) ∧
      (exit_code totalDownloads totalFailures = 2 ↔
        0 < totalFailures ∧ totalFailures < totalDownloads) ∧
      (exit_code totalDownloads totalFailures = 1 ↔
        0 < totalFailures ∧ totalDownloads ≤ totalFailures)) ∧
    (∀ (env : MainEnv) (hfTool : Bool) (dne sync : String → Bool)
        (ckW lrW vaW : String → CivitaiWorld),
      env.hfValid = false →
      main_totals env hfTool dne sync ckW lrW vaW =
        ((main_totals { env with hfRepos := "" } hfTool dne sync ckW lrW vaW).1,
          countIds env.hfRepos +
            (main_totals { env with hfRepos := "" } hfTool dne sync ckW lrW vaW).2)) := by
  constructor
  · intro t f
    unfold exit_code
    split_ifs with h1 h2 <;>
      refine ⟨⟨?_, ?_⟩, ⟨?_, ?_⟩, ⟨?_, ?_⟩⟩ <;> intro hx <;>
      first
      | exact hx.elim
      | trivial
      | omega
  · intro env hfTool dne sync ckW lrW vaW hvalid
    unfold main_totals
    by_cases h : env.hfRepos = "" <;> simp [h, hvalid, countIds_empty]

/-- C5, witness: the accounting part of the amended theorem applied to
the concrete mixed environment `envMixed`. -/
theorem exit_code_selection_witness :
    main_totals envMixed true (fun _ => false) (fun _ => true)
        (fun _ => wOk) (fun _ => wOk) (fun _ => wOk) =
      ((main_totals { envMixed with hfRepos := "" } true (fun _ => false) (fun _ => true)
          (fun _ => wOk) (fun _ => wOk) (fun _ => wOk)).1,
        countIds envMixed.hfRepos +
          (main_totals { envMixed with hfRepos := "" } true (fun _ => false) (fun _ => true)
            (fun _ => wOk) (fun _ => wOk) (fun _ => wOk)).2) :=
  exit_code_selection.2 envMixed true (fun _ => false) (fun _ => true)
    (fun _ => wOk) (fun _ => wOk) (fun _ => wOk) rfl

/-- C6: when a download ran (no pre-existing non-empty file, `aria2c`
succeeded) and the metadata supplied a hash, a failing post-download
verification deletes the file, leaves nothing on disk and reports the
identifier failed; and when no hash was supplied the download is accepted
unconditionally with the file kept. -/
theorem civitai_postdownload_checksum (modelId modelType : String)
    (token : Option String) (w : CivitaiWorld) (info : ModelInfo)
    (hid : modelId ≠ "") (htools : w.toolsPresent = true)
    (hinfo : get_civitai_model_info modelId w.resp = some info)
    (hname : info.filename.getD "" ≠ "")
    (hnoskip : (w.fileExists && decide (0 < w.fileSize)) = false)
    (hdl : w.downloadOk = true) :
    (info.hash ≠ "" → verify_checksum true info.hash w.hashOut = false →
      download_civitai_model modelId modelType token w =
        { success := false, metadataFetched := true, dirCreated := true
          downloadInvoked := true, authHeader := tokenNonblank token
          urlUsed := some info.download_url
          fileDeleted := true, filePresentAfter := false }) ∧
    (info.hash = "" →
      download_civitai_model modelId modelType token w =
        { success := true, metadataFetched := true, dirCreated := true
          downloadInvoked := true, authHeader := tokenNonblank token
          urlUsed := some info.download_url
          fileDeleted := false, filePresentAfter := true }) := by
  constructor
  · intro hh hv
    simp [download_civitai_model, hid, htools, hinfo, hname, hnoskip, hdl, hh, hv]
  · intro hh
    simp [download_civitai_model, hid, htools, hinfo, hname, hnoskip, hdl, hh]

/-- C6, witness: the mismatch branch of the theorem applied to the
concrete world `wMismatch` (download succeeds, file hashes to `bbbb`
against expected `aaaa`; the file ends up deleted and the id failed). -/
theorem civitai_postdownload_checksum_witness :
    download_civitai_model "9" "checkpoints" (some "tok") wMismatch =
      { success := false, metadataFetched := true, dirCreated := true
        downloadInvoked := true, authHeader := true
        urlUsed := some "https://civitai.com/api/download/models/9"
        fileDeleted := true, filePresentAfter := false } := by
  have h := (civitai_postdownload_checksum "9" "checkpoints" (some "tok") wMismatch
    { filename := some "m.safetensors"
      download_url := "https://civitai.com/api/download/models/9"
      hash := "aaaa"
      size := 0 }
    (by decide) (by decide) (by decide) (by decide) (by decide) (by decide)).1
    (by decide) (by decide)
  exact h.trans (by decide)

/-- C7: the checksum verifier returns true exactly when the file exists,
the expected hash is not blank, the hashing subprocess succeeded, and the
first whitespace-delimited token of its output equals the expected digest
up to case; so it returns false exactly on a missing file, a blank
expectation, a subprocess failure or error (including empty output), or a
differing digest. -/
theorem verify_checksum_characterization (fileExists : Bool) (expectedHash : String)
    (hres : HashResult) :
    verify_checksum fileExists expectedHash hres = true ↔
      (fileExists = true ∧ pyStrip expectedHash ≠ "" ∧
        ∃ out t rest, hres = HashResult.ok out ∧ pyWsTokens out = t :: rest ∧
          pyLower t = pyLower (pyStrip expectedHash)) := by
  unfold verify_checksum
  cases fileExists with
  | false => simp
  | true =>
    by_cases hb : pyStrip expectedHash = ""
    · simp [hb]
    · cases hres with
      | failed => simp [hb]
      | ok out =>
        cases h : pyWsTokens out with
        | nil => simp [hb, h]
        | cons t rest => simp [hb, h]

/-- C8, counterexample: with two HF repos configured and the sync tool
missing, the fetcher returns one aggregate failure — successes plus
failures is 1, not the 2 configured identifiers, and neither identifier
was pre-skipped as already present. -/
theorem accounting_dropped_ids_cex :
    countIds "a,b" = 2 ∧
    (download_hf_repos "a,b" none false (fun _ => false) (fun _ => false)).ok +
      (download_hf_repos "a,b" none false (fun _ => false) (fun _ => false)).fail = 1 := by
  decide

/-- C8, amended: every CivitAI batch, and every HF batch whose sync tool
is present, accounts each configured identifier as exactly one success or
one failure; when the HF sync tool is absent the whole non-empty batch
collapses to the single aggregate result `(0, 1)` instead. -/
theorem accounting_totals :
    (∀ (downloadList modelType : String) (token : Option String)
        (worlds : String → CivitaiWorld),
      (process_civitai_downloads downloadList modelType token worlds).1 +
        (process_civitai_downloads downloadList modelType token worlds).2 =
          countIds downloadList) ∧
    (∀ (reposList : String) (token : Option String) (dirNonEmpty syncOk : String → Bool),
      (download_hf_repos reposList token true dirNonEmpty syncOk).ok +
        (download_hf_repos reposList token true dirNonEmpty syncOk).fail =
          countIds reposList) ∧
    (∀ (reposList : String) (token : Option String) (dirNonEmpty syncOk : String → Bool),
      reposList ≠ "" →
      download_hf_repos reposList token false dirNonEmpty syncOk =
        { ok := 0, fail := 1, invoked := [] }) := by
  refine ⟨?_, ?_, ?_⟩
  · intro dl mt token worlds
    by_cases h : dl = ""
    · subst h; rfl
    · unfold process_civitai_downloads
      rw [if_neg h, civStep_foldl_sum]
      simp [countIds]
  · intro rl token dne sync
    by_cases h : rl = ""
    · subst h; rfl
    · have hd : download_hf_repos rl token true dne sync
          = (parseList rl).foldl (hfStep sync) { ok := 0, fail := 0, invoked := [] } := by
        unfold download_hf_repos
        rw [if_neg h]
        rfl
      rw [hd, (hfStep_foldl_spec sync (parseList rl) _).1]
      simp [countIds]
  · intro rl token dne sync h
    unfold download_hf_repos
    rw [if_neg h]
    simp

/-- C8, witness: the missing-tool part of the amended theorem applied to
the two-repo list. -/
theorem accounting_totals_witness :
    download_hf_repos "a,b" none false (fun _ => false) (fun _ => false) =
      { ok := 0, fail := 1, invoked := [] } :=
  accounting_totals.2.2 "a,b" none (fun _ => false) (fun _ => false) (by decide)

/-- C9: calling the single-model CivitAI download with an empty
identifier returns success immediately — no tool check, no metadata
fetch, no directory creation, no download, no deletion; the destination
file's existence is untouched. -/
theorem civitai_empty_id_noop (modelType : String) (token : Option String) (w : CivitaiWorld) :
    download_civitai_model "" modelType token w =
      { success := true, metadataFetched := false, dirCreated := false
        downloadInvoked := false, authHeader := false, urlUsed := none
        fileDeleted := false, filePresentAfter := w.fileExists } := rfl

/-- C10: with a non-empty repository list and the sync tool absent from
PATH, the HF fetcher returns exactly zero successes and one failure, with
nothing invoked, regardless of how many identifiers were configured. -/
theorem hf_missing_tool_single_failure (reposList : String) (token : Option String)
    (dirNonEmpty syncOk : String → Bool) (h : reposList ≠ "") :
    download_hf_repos reposList token false dirNonEmpty syncOk =
      { ok := 0, fail := 1, invoked := [] } := by
  unfold download_hf_repos
  rw [if_neg h]
  simp

/-- C10, witness: the theorem applied to a three-repo list. -/
theorem hf_missing_tool_single_failure_witness :
    download_hf_repos "a,b,c" none false (fun _ => false) (fun _ => true) =
      { ok := 0, fail := 1, invoked := [] } :=
  hf_missing_tool_single_failure "a,b,c" none (fun _ => false) (fun _ => true) (by decide)

end Catalyst
